import Mathlib

/-!
Verification of the Math Tutor routing-and-retrieval pipeline.

The repository ships the React presentation layer (`App.js`,
`MathQuestion.js`, `FeedbackPanel.js`, `SystemStatus.js`, the
`ResponseDisplay`/`Typewriter` variants) together with deployment scripts;
the backend core (Guardrail Validator, Knowledge Retriever, Router,
Pipeline Coordinator, Feedback Processor) is described by the design
document but its code is not part of the source tree.  Frontend behaviour
is embedded directly from the JavaScript; the backend components are
modelled from the specification, with each such definition marked
`Modelled from the spec:` in its doc comment.  JavaScript strings are
embedded as Lean `String`s (or `List Char` where character indexing
matters), numbers as `ℚ`/`Nat`.
-/

namespace MathTutor

/-! ## Knowledge Retriever (spec §4.2; backend code absent from the tree) -/

/-- Modelled from the spec: a KnowledgeRecord has a unique identifier,
question text, canonical solution text, topic tag, a fixed-dimension
embedding vector and a creation timestamp. -/
structure KnowledgeRecord where
  rid : Nat
  questionText : String
  solutionText : String
  topic : String
  embedding : List ℚ
  createdAt : Nat
deriving Repr, DecidableEq

/-- Dot product of two embedding vectors. -/
def dotQ (a b : List ℚ) : ℚ := (List.zipWith (· * ·) a b).sum

/-- Squared Euclidean norm of an embedding vector. -/
def sumSq (a : List ℚ) : ℚ := dotQ a a

/-- Modelled from the spec: cosine similarity between two embeddings,
clamped to [0,1].  To keep the development inside `ℚ` the score is
represented by its square, `(a·b)² / (|a|²·|b|²)`, with non-positive dot
products mapped to 0.  On [0,1] this transform of the cosine is strictly
monotone, so it induces the same ranking, and it equals 1 exactly when the
cosine similarity is 1. -/
def simScore (a b : List ℚ) : ℚ :=
  if dotQ a b ≤ 0 then 0 else (dotQ a b) ^ 2 / (sumSq a * sumSq b)

/-- Modelled from the spec: the vector-indexed store of prior records,
with the counter used to assign fresh identifiers. -/
structure KnowledgeStore where
  records : List KnowledgeRecord
  nextId : Nat
deriving Repr, DecidableEq

def KnowledgeStore.emptyStore : KnowledgeStore := ⟨[], 0⟩

/-- Bit-identical (question text, solution text) content, the
deduplication key of spec §4.2. -/
def sameContent (q s : String) (r : KnowledgeRecord) : Bool :=
  r.questionText == q && r.solutionText == s

/-- Modelled from the spec: insertion assigns a new unique identifier and
stores the record; records with bit-identical (question text, solution
text) are deduplicated by skipping insertion and returning the existing
identifier. -/
def KnowledgeStore.insertRecord (st : KnowledgeStore) (q s topic : String)
    (emb : List ℚ) (now : Nat) : Nat × KnowledgeStore :=
  match st.records.find? (sameContent q s) with
  | some r => (r.rid, st)
  | none =>
      (st.nextId,
       ⟨st.records ++ [⟨st.nextId, q, s, topic, emb, now⟩], st.nextId + 1⟩)

/-- Number of records currently stored. -/
def KnowledgeStore.size (st : KnowledgeStore) : Nat := st.records.length

/-- C5 core fact: a second insertion of the same content returns the same
identifier and leaves the store untouched. -/
theorem insert_insert_same_content (st : KnowledgeStore)
    (q s t₁ t₂ : String) (e₁ e₂ : List ℚ) (n₁ n₂ : Nat) :
    ((st.insertRecord q s t₁ e₁ n₁).2).insertRecord q s t₂ e₂ n₂ =
      ((st.insertRecord q s t₁ e₁ n₁).1, (st.insertRecord q s t₁ e₁ n₁).2) := by
  unfold KnowledgeStore.insertRecord
  cases hf : st.records.find? (sameContent q s) with
  | some r => simp [hf]
  | none =>
      simp only [hf]
      rw [List.find?_append, hf]
      simp [sameContent]

/-- **C5** — Inserting a record with bit-identical (question text,
solution text) twice into the Knowledge Retriever returns the same record
identifier both times, the second insertion is skipped (the store is
unchanged), and the store size is unchanged after the second insertion. -/
theorem insert_idempotent_on_duplicate_content (st : KnowledgeStore)
    (q s t₁ t₂ : String) (e₁ e₂ : List ℚ) (n₁ n₂ : Nat) :
    (((st.insertRecord q s t₁ e₁ n₁).2).insertRecord q s t₂ e₂ n₂).1 =
        (st.insertRecord q s t₁ e₁ n₁).1 ∧
    (((st.insertRecord q s t₁ e₁ n₁).2).insertRecord q s t₂ e₂ n₂).2 =
        (st.insertRecord q s t₁ e₁ n₁).2 ∧
    ((((st.insertRecord q s t₁ e₁ n₁).2).insertRecord q s t₂ e₂ n₂).2).size =
        ((st.insertRecord q s t₁ e₁ n₁).2).size := by
  rw [insert_insert_same_content]
  exact ⟨rfl, rfl, rfl⟩

/-- Modelled from the spec: ranking order of search results — higher
similarity first, ties broken by most-recent creation timestamp (newest
first). -/
def rankedBefore (x y : KnowledgeRecord × ℚ) : Bool :=
  decide (y.2 < x.2) || (decide (x.2 = y.2) && decide (y.1.createdAt ≤ x.1.createdAt))

/-- Insertion into a list kept in ranking order. -/
def insertRanked (x : KnowledgeRecord × ℚ) :
    List (KnowledgeRecord × ℚ) → List (KnowledgeRecord × ℚ)
  | [] => [x]
  | y :: ys => if rankedBefore x y then x :: y :: ys else y :: insertRanked x ys

/-- Insertion sort of scored records into ranking order. -/
def rankDesc : List (KnowledgeRecord × ℚ) → List (KnowledgeRecord × ℚ)
  | [] => []
  | x :: xs => insertRanked x (rankDesc xs)

/-- Modelled from the spec: similarity search ranks stored records by
cosine similarity with the query embedding (descending, ties by newest
creation timestamp) and returns the `topK` highest-scoring records, never
more than the store's current size. -/
def KnowledgeStore.search (st : KnowledgeStore) (query : List ℚ) (topK : Nat) :
    List (KnowledgeRecord × ℚ) :=
  (rankDesc (st.records.map (fun r => (r, simScore query r.embedding)))).take topK

theorem dotQ_self_nonneg (a : List ℚ) : 0 ≤ dotQ a a := by
  induction a with
  | nil => simp [dotQ]
  | cons x xs ih =>
      have hx : 0 ≤ x * x := mul_self_nonneg x
      simpa [dotQ, List.sum_cons] using add_nonneg hx ih

theorem sumSq_nonneg (a : List ℚ) : 0 ≤ sumSq a := dotQ_self_nonneg a

/-- A query embedding matches itself with similarity 1 (provided the
embedding is not the zero vector). -/
theorem simScore_self (a : List ℚ) (h : sumSq a ≠ 0) : simScore a a = 1 := by
  have hpos : 0 < sumSq a := lt_of_le_of_ne (sumSq_nonneg a) (Ne.symm h)
  have hd : dotQ a a = sumSq a := rfl
  unfold simScore
  rw [if_neg (by rw [hd]; exact not_le.mpr hpos)]
  rw [hd, sq]
  exact div_self (mul_ne_zero h h)

theorem mem_insertRanked (x y : KnowledgeRecord × ℚ)
    (l : List (KnowledgeRecord × ℚ)) :
    y ∈ insertRanked x l ↔ y = x ∨ y ∈ l := by
  induction l with
  | nil => simp [insertRanked]
  | cons a as ih =>
      by_cases hb : rankedBefore x a
      · simp [insertRanked, hb]
      · simp only [insertRanked, if_neg hb, List.mem_cons, ih]
        tauto

theorem mem_rankDesc (y : KnowledgeRecord × ℚ) (l : List (KnowledgeRecord × ℚ)) :
    y ∈ rankDesc l ↔ y ∈ l := by
  induction l with
  | nil => simp [rankDesc]
  | cons a as ih => simp [rankDesc, mem_insertRanked, ih]

theorem rankedBefore_self (x : KnowledgeRecord × ℚ) : rankedBefore x x = true := by
  simp [rankedBefore]

theorem rankedBefore_of_lt (x y : KnowledgeRecord × ℚ) (h : y.2 < x.2) :
    rankedBefore x y = true := by
  simp [rankedBefore, h]

theorem not_rankedBefore_of_lt (x y : KnowledgeRecord × ℚ) (h : x.2 < y.2) :
    rankedBefore x y = false := by
  simp only [rankedBefore, Bool.or_eq_false_iff, Bool.and_eq_false_iff,
    decide_eq_false_iff_not, not_lt]
  exact ⟨le_of_lt h, Or.inl (ne_of_lt h)⟩

/-- The element with the strictly highest score ends up at the head of the
insertion sort. -/
theorem rankDesc_head_of_top (l : List (KnowledgeRecord × ℚ))
    (x : KnowledgeRecord × ℚ) (hx : x ∈ l) (hx1 : x.2 = 1)
    (hall : ∀ y ∈ l, y = x ∨ y.2 < 1) :
    (rankDesc l).head? = some x := by
  induction l with
  | nil => cases hx
  | cons a as ih =>
      by_cases ha : a = x
      · subst ha
        show (insertRanked a (rankDesc as)).head? = some a
        cases hds : rankDesc as with
        | nil => simp [insertRanked]
        | cons y ys =>
            have hy : y ∈ as := by
              rw [← mem_rankDesc y as, hds]; exact List.mem_cons_self y ys
            have : y = a ∨ y.2 < 1 := hall y (List.mem_cons_of_mem a hy)
            have hb : rankedBefore a y = true := by
              rcases this with h | h
              · rw [h]; exact rankedBefore_self a
              · exact rankedBefore_of_lt a y (by rw [hx1]; exact h)
            simp [insertRanked, hb]
      · have hxas : x ∈ as := by
          rcases List.mem_cons.mp hx with h | h
          · exact absurd h.symm ha
          · exact h
        have hha : a.2 < 1 := by
          rcases hall a (List.mem_cons_self a as) with h | h
          · exact absurd h ha
          · exact h
        have ihh := ih hxas (fun y hy => hall y (List.mem_cons_of_mem a hy))
        show (insertRanked a (rankDesc as)).head? = some x
        cases hds : rankDesc as with
        | nil => rw [hds] at ihh; cases ihh
        | cons y ys =>
            rw [hds] at ihh
            have hyx : y = x := by simpa using ihh
            subst hyx
            have hb : rankedBefore a y = false :=
              not_rankedBefore_of_lt a y (by rw [hx1]; exact hha)
            simp [insertRanked, hb]

theorem head?_take (l : List (KnowledgeRecord × ℚ)) (k : Nat) (hk : 1 ≤ k) :
    (l.take k).head? = l.head? := by
  cases l with
  | nil => simp
  | cons a as =>
      cases k with
      | zero => cases hk
      | succ n => simp

/-- **C6** — A KnowledgeRecord inserted with embedding `E` is returned as
the top match for a query with embedding `E`, with similarity 1 (the
representation of cosine similarity 1.0), when no other record in the
store is closer. -/
theorem search_round_trip_top_match (st : KnowledgeStore)
    (r : KnowledgeRecord) (E : List ℚ) (k : Nat)
    (hr : r ∈ st.records) (hemb : r.embedding = E) (hnz : sumSq E ≠ 0)
    (hothers : ∀ r' ∈ st.records, r' ≠ r → simScore E r'.embedding < 1)
    (hk : 1 ≤ k) :
    (st.search E k).head? = some (r, 1) := by
  unfold KnowledgeStore.search
  rw [head?_take _ _ hk]
  have hs1 : simScore E r.embedding = 1 := by
    rw [hemb]; exact simScore_self E hnz
  apply rankDesc_head_of_top
  · have : (r, simScore E r.embedding) ∈
        st.records.map (fun r' => (r', simScore E r'.embedding)) :=
      List.mem_map_of_mem _ hr
    rwa [hs1] at this
  · rfl
  · intro y hy
    rcases List.mem_map.mp hy with ⟨r', hr', hy'⟩
    by_cases hrr : r' = r
    · left; rw [← hy', hrr, hs1]
    · right; rw [← hy']; exact hothers r' hr' hrr

/-- Witness for C6 at a concrete one-record store. -/
theorem search_round_trip_top_match_witness :
    (KnowledgeStore.search ⟨[⟨0, "q", "s", "algebra", [1], 0⟩], 1⟩ [1] 1).head? =
      some (⟨0, "q", "s", "algebra", [1], 0⟩, 1) :=
  search_round_trip_top_match _ _ _ _ (by simp) rfl
    (by norm_num [sumSq, dotQ]) (by simp) le_rfl

/-! ## JavaScript string primitives

`String.trim`/`String.toLower` from Lean core are not kernel-reducible,
so the JavaScript string operations used by the frontend are embedded as
structurally recursive functions over the character data. -/

/-- JavaScript `String.prototype.trim()`: strips leading and trailing
whitespace. -/
def jsTrim (s : String) : String :=
  ⟨((s.data.dropWhile Char.isWhitespace).reverse.dropWhile Char.isWhitespace).reverse⟩

/-- JavaScript `String.prototype.toLowerCase()` restricted to the ASCII
range exercised by the frontend. -/
def jsToLower (s : String) : String := ⟨s.data.map Char.toLower⟩

/-- Character-list test that `pat` occurs at the start of `s`. -/
def leadsWith : List Char → List Char → Bool
  | [], _ => true
  | _ :: _, [] => false
  | p :: ps, c :: cs => p == c && leadsWith ps cs

/-- Character-list substring occurrence test. -/
def containsChars (s pat : List Char) : Bool :=
  match s with
  | [] => pat.isEmpty
  | _ :: rest => leadsWith pat s || containsChars rest pat

/-- JavaScript `String.prototype.includes(pat)`. -/
def includesStr (s pat : String) : Bool := containsChars s.data pat.data

/-! ## Guardrail Validator (spec §4.1; backend code absent from the tree) -/

/-- Modelled from the spec: the maximum accepted question length. -/
def maxQuestionLength : Nat := 1000

/-- Modelled from the spec: `validate_input` rejects empty/whitespace-only
text, text exceeding a maximum length, and text matching a
disallowed-content policy (the policy itself is a collaborator-style
predicate since the spec fixes no concrete pattern list); it trims the
text. -/
def validateInput (disallowed : String → Bool) (text : String) : Option String :=
  if jsTrim text = "" then none
  else if maxQuestionLength < (jsTrim text).length then none
  else if disallowed (jsTrim text) then none
  else some (jsTrim text)

/-! ## Router (spec §4.4) and Pipeline Coordinator (spec §4.5);
backend code absent from the tree -/

inductive RouteChoice
  | knowledgeBase
  | webSearch
deriving Repr, DecidableEq

/-- Modelled from the spec: the routing decision carries the triggering
similarity score and the threshold used; the degraded flag marks the
fall-back-to-KnowledgeBase choice taken when web search is unavailable. -/
structure RoutingDecision where
  choice : RouteChoice
  degraded : Bool
  score : ℚ
  threshold : ℚ
deriving Repr, DecidableEq

/-- A ranked snippet returned by the Web Search Connector. -/
structure SearchSnippet where
  snippet : String
  sourceUrl : String
  relevance : ℚ
deriving Repr, DecidableEq

/-- Modelled from the spec: outcome of the Web Search Connector — ranked
snippets, or `unavailable` on timeout / transport failure
(`SearchUnavailable`). -/
inductive WebResult
  | found (snippets : List SearchSnippet)
  | unavailable
deriving Repr, DecidableEq

/-- Retrieved context handed to the Solution Synthesizer. -/
inductive Context
  | kb (results : List (KnowledgeRecord × ℚ))
  | web (snippets : List SearchSnippet)
deriving Repr, DecidableEq

/-- Modelled from the spec: process-wide calibration state — running
feedback count and current routing confidence threshold. -/
structure CalibrationState where
  feedbackCount : Nat
  threshold : ℚ
deriving Repr, DecidableEq

/-- The default routing confidence threshold (0.7). -/
def defaultThreshold : ℚ := 7 / 10

def CalibrationState.init : CalibrationState := ⟨0, defaultThreshold⟩

/-- Best-match similarity of a ranked retrieval result (0 when empty). -/
def bestScore (results : List (KnowledgeRecord × ℚ)) : ℚ :=
  ((results.head?).map Prod.snd).getD 0

/-- Modelled from the spec §4.4: query the Knowledge Retriever for top-k
matches; if the best match's similarity is at least the calibration
threshold choose KnowledgeBase with the retrieved records as context;
otherwise choose WebSearch, and if the connector failed with
`SearchUnavailable`, degrade to KnowledgeBase using whatever matches were
found (even below threshold) rather than failing the request. -/
def route (cal : CalibrationState) (st : KnowledgeStore) (emb : List ℚ)
    (web : WebResult) (topK : Nat) : RoutingDecision × Context :=
  if cal.threshold ≤ bestScore (st.search emb topK) then
    (⟨.knowledgeBase, false, bestScore (st.search emb topK), cal.threshold⟩,
     .kb (st.search emb topK))
  else
    match web with
    | .found snippets =>
        (⟨.webSearch, false, bestScore (st.search emb topK), cal.threshold⟩,
         .web snippets)
    | .unavailable =>
        (⟨.knowledgeBase, true, bestScore (st.search emb topK), cal.threshold⟩,
         .kb (st.search emb topK))

/-- Modelled from the spec: the response produced once per request. -/
structure SolutionResponse where
  question : String
  answer : String
  confidence : ℚ
  decision : RoutingDecision
  trace : List String
  verification : Option String
  sessionId : String
  timestamp : Nat
deriving Repr, DecidableEq

/-- Modelled from the spec §7: typed failures surfaced to the caller. -/
inductive PipelineError
  | inputRejected
  | outputRejected
  | pipelineFailed
deriving Repr, DecidableEq

/-- Terminal outcome of one request: a completed `SolutionResponse`, or a
typed failure together with the trace of stages executed (`rejected`
covers both guardrail terminals and the synthesis-failure terminal, the
error naming which). -/
inductive Outcome
  | completed (resp : SolutionResponse)
  | rejected (err : PipelineError) (trace : List String)
deriving Repr, DecidableEq

/-- Trace name of the retrieval stage actually executed. -/
def stageOf : RouteChoice → String
  | .knowledgeBase => "knowledge-base"
  | .webSearch => "web-search"

/-- The collaborators and shared state a request executes against. -/
structure PipelineEnv where
  embed : String → List ℚ
  store : KnowledgeStore
  cal : CalibrationState
  webConnector : String → WebResult
  generate : String → Context → Option (String × Option String)
  disallowedInput : String → Bool
  validOutput : String → Bool
  topK : Nat

/-- Modelled from the spec §4.5: the Coordinator sequences
input-guardrails → routing → retrieval (kb|web) → synthesis →
output-guardrails, appending each executed stage to the trace; the bounded
synthesis retry budget is folded into the collaborator, whose `none`
result means the budget was exhausted (`PipelineFailed`). -/
def handle (env : PipelineEnv) (q sid : String) (now : Nat) : Outcome :=
  match validateInput env.disallowedInput q with
  | none => .rejected .inputRejected ["input-guardrails"]
  | some vq =>
      let rc := route env.cal env.store (env.embed vq) (env.webConnector vq) env.topK
      let t := ["input-guardrails", "routing", stageOf rc.1.choice, "synthesis"]
      match env.generate vq rc.2 with
      | none => .rejected .pipelineFailed t
      | some (ans, ver) =>
          if env.validOutput ans then
            .completed ⟨vq, ans, rc.1.score, rc.1, t ++ ["output-guardrails"], ver, sid, now⟩
          else
            .rejected .outputRejected (t ++ ["output-guardrails"])

theorem route_kb_of_above_threshold (cal : CalibrationState)
    (st : KnowledgeStore) (emb : List ℚ) (w : WebResult) (k : Nat) (s : ℚ)
    (hbest : bestScore (st.search emb k) = s) (hthr : cal.threshold ≤ s) :
    route cal st emb w k =
      (⟨.knowledgeBase, false, s, cal.threshold⟩, .kb (st.search emb k)) := by
  unfold route
  rw [hbest, if_pos hthr]

theorem route_degraded_of_unavailable (cal : CalibrationState)
    (st : KnowledgeStore) (emb : List ℚ) (k : Nat) (s : ℚ)
    (hbest : bestScore (st.search emb k) = s) (hlt : s < cal.threshold) :
    route cal st emb .unavailable k =
      (⟨.knowledgeBase, true, s, cal.threshold⟩, .kb (st.search emb k)) := by
  unfold route
  rw [hbest, if_neg (not_le.mpr hlt)]

/-- **C1** — For every request whose best knowledge-base match has
similarity at least the calibration threshold, the Router chooses
KnowledgeBase with the retrieved records as context, and any resulting
SolutionResponse's PipelineTrace includes the knowledge-base stage and
contains no web-search stage. -/
theorem kb_routing_above_threshold_consistent_trace (env : PipelineEnv)
    (q sid vq : String) (now : Nat) (s : ℚ)
    (hv : validateInput env.disallowedInput q = some vq)
    (hbest : bestScore (env.store.search (env.embed vq) env.topK) = s)
    (hthr : env.cal.threshold ≤ s) :
    (route env.cal env.store (env.embed vq) (env.webConnector vq) env.topK).1.choice
        = RouteChoice.knowledgeBase ∧
    (route env.cal env.store (env.embed vq) (env.webConnector vq) env.topK).2
        = Context.kb (env.store.search (env.embed vq) env.topK) ∧
    ∀ resp, handle env q sid now = Outcome.completed resp →
      resp.decision.choice = RouteChoice.knowledgeBase ∧
      "knowledge-base" ∈ resp.trace ∧ "web-search" ∉ resp.trace := by
  have hroute := route_kb_of_above_threshold env.cal env.store (env.embed vq)
      (env.webConnector vq) env.topK s hbest hthr
  refine ⟨by rw [hroute], by rw [hroute], ?_⟩
  intro resp hresp
  simp only [handle, hv] at hresp
  rw [hroute] at hresp
  simp only [stageOf] at hresp
  cases hgen : env.generate vq (Context.kb (env.store.search (env.embed vq) env.topK)) with
  | none => rw [hgen] at hresp; cases hresp
  | some p =>
      obtain ⟨ans, ver⟩ := p
      rw [hgen] at hresp
      simp only [] at hresp
      cases hvo : env.validOutput ans with
      | true =>
          rw [hvo, if_pos rfl] at hresp
          cases hresp
          refine ⟨rfl, ?_, ?_⟩
          · show "knowledge-base" ∈ ["input-guardrails", "routing",
              "knowledge-base", "synthesis"] ++ ["output-guardrails"]
            decide
          · show "web-search" ∉ ["input-guardrails", "routing",
              "knowledge-base", "synthesis"] ++ ["output-guardrails"]
            decide
      | false =>
          rw [hvo, if_neg (by simp)] at hresp
          cases hresp

/-- A one-record store whose single record matches the demo question
exactly, used to exercise the above-threshold routing path. -/
def demoRecordHigh : KnowledgeRecord :=
  ⟨0, "Solve: 2x + 5 = 13", "x = 4", "algebra", [1], 0⟩

def envHigh : PipelineEnv where
  embed := fun _ => [1]
  store := ⟨[demoRecordHigh], 1⟩
  cal := CalibrationState.init
  webConnector := fun _ => WebResult.unavailable
  generate := fun _ _ => some ("x = 4", none)
  disallowedInput := fun _ => false
  validOutput := fun _ => true
  topK := 5

/-- Witness for C1 at a concrete environment with an exact match. -/
theorem kb_routing_above_threshold_consistent_trace_witness :
    (route envHigh.cal envHigh.store (envHigh.embed "Solve: 2x + 5 = 13")
        (envHigh.webConnector "Solve: 2x + 5 = 13") envHigh.topK).1.choice
      = RouteChoice.knowledgeBase :=
  (kb_routing_above_threshold_consistent_trace envHigh "Solve: 2x + 5 = 13"
    "session-1" "Solve: 2x + 5 = 13" 0 1
    (by decide)
    (by norm_num [envHigh, demoRecordHigh, KnowledgeStore.search, rankDesc,
      insertRanked, bestScore, simScore, dotQ, sumSq])
    (by norm_num [envHigh, CalibrationState.init, defaultThreshold])).1

/-- **C2** — When the best-match similarity is below the threshold and the
Web Search Connector fails with `SearchUnavailable`, the Coordinator still
returns a SolutionResponse using a degraded KnowledgeBase routing decision
built from the below-threshold knowledge-base matches (here: whenever at
least one match exists), instead of propagating a failure. -/
theorem degraded_kb_response_when_search_unavailable (env : PipelineEnv)
    (q sid vq ans : String) (ver : Option String) (now : Nat) (s : ℚ)
    (hv : validateInput env.disallowedInput q = some vq)
    (_hne : env.store.search (env.embed vq) env.topK ≠ [])
    (hbest : bestScore (env.store.search (env.embed vq) env.topK) = s)
    (hlt : s < env.cal.threshold)
    (hweb : env.webConnector vq = WebResult.unavailable)
    (hgen : env.generate vq (Context.kb (env.store.search (env.embed vq) env.topK))
        = some (ans, ver))
    (hout : env.validOutput ans = true) :
    handle env q sid now = Outcome.completed
      ⟨vq, ans, s, ⟨RouteChoice.knowledgeBase, true, s, env.cal.threshold⟩,
       ["input-guardrails", "routing", "knowledge-base", "synthesis",
        "output-guardrails"], ver, sid, now⟩ := by
  have hroute := route_degraded_of_unavailable env.cal env.store (env.embed vq)
      env.topK s hbest hlt
  simp only [handle, hv, hweb]
  rw [hroute]
  simp only [stageOf, hgen]
  rw [hout, if_pos rfl]
  rfl

/-- A one-record store whose record is similar but not close enough,
used to exercise the degraded routing path. -/
def demoRecordLow : KnowledgeRecord := ⟨0, "q", "s", "algebra", [1, 1], 0⟩

def envLow : PipelineEnv where
  embed := fun _ => [1, 0]
  store := ⟨[demoRecordLow], 1⟩
  cal := CalibrationState.init
  webConnector := fun _ => WebResult.unavailable
  generate := fun _ _ => some ("best-effort answer", none)
  disallowedInput := fun _ => false
  validOutput := fun _ => true
  topK := 5

/-- Witness for C2 at a concrete environment whose only match scores 1/2
(below the 0.7 threshold) and whose web connector is unavailable. -/
theorem degraded_kb_response_when_search_unavailable_witness :
    handle envLow "q1" "session-2" 0 = Outcome.completed
      ⟨"q1", "best-effort answer", 1 / 2,
       ⟨RouteChoice.knowledgeBase, true, 1 / 2, envLow.cal.threshold⟩,
       ["input-guardrails", "routing", "knowledge-base", "synthesis",
        "output-guardrails"], none, "session-2", 0⟩ :=
  degraded_kb_response_when_search_unavailable envLow "q1" "session-2" "q1"
    "best-effort answer" none 0 (1 / 2)
    (by decide)
    (by norm_num [envLow, demoRecordLow, KnowledgeStore.search, rankDesc,
      insertRanked, simScore, dotQ, sumSq])
    (by norm_num [envLow, demoRecordLow, KnowledgeStore.search, rankDesc,
      insertRanked, bestScore, simScore, dotQ, sumSq])
    (by norm_num [envLow, CalibrationState.init, defaultThreshold])
    rfl rfl rfl

/-! ## Frontend: `App.js` solve flow

Two variants of `App.js` ship in the tree: the primary one has a demo
mode and, on a failed `/solve` request, falls back to a demo response;
the alternate one surfaces the error detail instead.  The handler state
after one invocation is captured by `SolveOutcome`; `requestSent` records
whether the `/solve` request was issued at all. -/

/-- The response object the frontend renders. -/
structure AppResponse where
  question : String
  answer : String
  confidence : ℚ
  route_taken : String
  component_used : String
  timestamp : String
deriving Repr, DecidableEq

/-- Result of the `/solve` HTTP call: the parsed response, or a failure
with the optional `err.response.data.detail` payload. -/
inductive BackendResult
  | ok (resp : AppResponse)
  | err (detail : Option String)
deriving Repr, DecidableEq

/-- `getDemoResponse` from `App.js`: canned demo answers selected by
substring checks on the lower-cased question. -/
def getDemoResponse (question now : String) : AppResponse :=
  if includesStr (jsToLower question) "2+2" || includesStr (jsToLower question) "2 + 2" then
    ⟨question,
     "**Step-by-step solution:**\n\n1. We need to add 2 and 2\n2. 2 + 2 = 4\n\n**Final Answer:** 4\n\nThis is a basic addition problem. When we combine 2 units with another 2 units, we get a total of 4 units.",
     95 / 100, "demo_mode", "Demo Math Solver", now⟩
  else if includesStr (jsToLower question) "derivative" ||
      includesStr (jsToLower question) "differentiate" then
    ⟨question,
     "**Calculus Problem - Derivative:**\n\n*This is a demo response showing the type of mathematical solutions our system provides.*\n\nFor derivative problems, our system would:\n1. Parse the mathematical expression\n2. Apply differentiation rules\n3. Simplify the result\n4. Provide step-by-step explanation\n\n**Note:** Connect to the full backend system for complete calculus solutions.",
     85 / 100, "demo_mode", "Demo Math Solver", now⟩
  else if includesStr (jsToLower question) "quadratic" ||
      includesStr (jsToLower question) "x^2" then
    ⟨question,
     "**Quadratic Equation Demo:**\n\nFor quadratic equations like ax² + bx + c = 0, our system uses:\n\n1. **Quadratic Formula:** x = (-b ± √(b²-4ac)) / 2a\n2. **Factoring methods** when applicable\n3. **Graphical analysis** for visual learners\n\n*This is a demo response. The full system provides complete step-by-step solutions with multiple approaches.*",
     88 / 100, "demo_mode", "Demo Math Solver", now⟩
  else
    ⟨question,
     "**Demo Mode Response:**\n\nYou asked: \"" ++ question ++
       "\"\n\n*This is a demonstration of our Math Tutor system deployed on GitHub Pages.*\n\n**Our Full System Includes:**\n- 🧠 Advanced RAG with MongoDB Atlas vector search\n- 🔍 Web search integration via MCP protocol\n- 🤖 Google Gemini AI for complex problem solving\n- 📚 Human-in-the-loop learning system\n- ⚡ Real-time mathematical reasoning\n\n**To experience the full system:** Run the backend server locally and connect to localhost:8001\n\n**Available Routes:**\n1. MongoDB Atlas Knowledge Base\n2. Web Search + MCP Integration\n3. Google Gemini API Fallback",
     75 / 100, "demo_mode", "GitHub Pages Demo", now⟩

/-- The demo response substituted by the primary `App.js` variant when the
`/solve` request fails (its `catch` branch). -/
def demoFallbackResponse (question now : String) : AppResponse :=
  { getDemoResponse question now with
      answer := "**Backend Connection Failed - Demo Response:**\n\n" ++
        (getDemoResponse question now).answer ++
        "\n\n⚠️ *Note: This is a demo response because the backend server is not accessible.*",
      route_taken := "demo_fallback" }

/-- Frontend handler state after one `handleSolveQuestion` invocation. -/
structure SolveOutcome where
  error : Option String
  response : Option AppResponse
  requestSent : Bool
deriving Repr, DecidableEq

def errEmptyQuestion : String := "Please enter a mathematical question"

/-- `handleSolveQuestion` from the primary `App.js` variant: reject blank
questions locally, answer from the demo bank in demo mode, otherwise call
the backend and — on failure — silently substitute the demo fallback. -/
def handleSolveQuestion (demoMode : Bool) (question : String)
    (backend : BackendResult) (now : String) : SolveOutcome :=
  if jsTrim question = "" then ⟨some errEmptyQuestion, none, false⟩
  else if demoMode then ⟨none, some (getDemoResponse question now), false⟩
  else
    match backend with
    | .ok resp => ⟨none, some resp, true⟩
    | .err _ => ⟨none, some (demoFallbackResponse question now), true⟩

def fallbackErrorText : String :=
  "Failed to solve the mathematical problem. Please try again."

/-- `handleSolveQuestion` from the alternate `App.js` variant: on failure
it surfaces `err.response.data.detail` (or a generic message) and leaves
the response unset. -/
def handleSolveQuestionAlt (question : String) (backend : BackendResult) :
    SolveOutcome :=
  if jsTrim question = "" then ⟨some errEmptyQuestion, none, false⟩
  else
    match backend with
    | .ok resp => ⟨none, some resp, true⟩
    | .err detail => ⟨some (detail.getD fallbackErrorText), none, true⟩

/-- `handleSubmit` guard of `MathQuestion.js`: the submit handler runs only
when the trimmed question is nonempty and nothing is loading. -/
def mathQuestionSubmits (question : String) (loading : Bool) : Bool :=
  !(jsTrim question == "") && !loading

/-- **C3, counterexample** — On a failed backend call (non-demo mode) the
primary `App.js` variant reports no error and substitutes a demo fallback
answer marked `route_taken = "demo_fallback"`: the system does silently
substitute a fallback answer, contradicting the claim. -/
theorem silent_demo_fallback_counterexample :
    (handleSolveQuestion false "1+1"
        (BackendResult.err (some "Internal Server Error")) "t0").error = none ∧
    ((handleSolveQuestion false "1+1"
        (BackendResult.err (some "Internal Server Error")) "t0").response.map
      AppResponse.route_taken) = some "demo_fallback" :=
  ⟨rfl, rfl⟩

/-- **C3, amended** — On output-guardrail rejection the (spec-modelled)
core surfaces the typed `OutputRejected` error; on backend failure the
alternate `App.js` variant surfaces a user-visible error and substitutes
no answer, while the primary variant substitutes the demo fallback
response marked `demo_fallback`; and no handler outcome ever mixes an
error state with response content. -/
theorem failure_surfacing_and_fallback_behavior :
    (∀ (env : PipelineEnv) (q sid vq ans : String) (ver : Option String) (now : Nat),
      validateInput env.disallowedInput q = some vq →
      env.generate vq (route env.cal env.store (env.embed vq)
          (env.webConnector vq) env.topK).2 = some (ans, ver) →
      env.validOutput ans = false →
      handle env q sid now = Outcome.rejected PipelineError.outputRejected
        (["input-guardrails", "routing",
          stageOf (route env.cal env.store (env.embed vq)
            (env.webConnector vq) env.topK).1.choice, "synthesis"] ++
          ["output-guardrails"])) ∧
    (∀ (q : String) (detail : Option String), jsTrim q ≠ "" →
      handleSolveQuestionAlt q (BackendResult.err detail) =
        ⟨some (detail.getD fallbackErrorText), none, true⟩) ∧
    (∀ (q now : String) (detail : Option String), jsTrim q ≠ "" →
      handleSolveQuestion false q (BackendResult.err detail) now =
        ⟨none, some (demoFallbackResponse q now), true⟩) ∧
    (∀ (demoMode : Bool) (q now : String) (b : BackendResult),
      ¬((handleSolveQuestion demoMode q b now).error.isSome ∧
        (handleSolveQuestion demoMode q b now).response.isSome)) ∧
    (∀ (q : String) (b : BackendResult),
      ¬((handleSolveQuestionAlt q b).error.isSome ∧
        (handleSolveQuestionAlt q b).response.isSome)) := by
  refine ⟨?_, ?_, ?_, ?_, ?_⟩
  · intro env q sid vq ans ver now hv hgen hvo
    simp only [handle, hv, hgen]
    rw [hvo, if_neg (by simp)]
  · intro q detail hq
    simp [handleSolveQuestionAlt, hq]
  · intro q now detail hq
    simp [handleSolveQuestion, hq]
  · intro demoMode q now b
    unfold handleSolveQuestion
    split
    · simp
    · split
      · simp
      · cases b <;> simp
  · intro q b
    unfold handleSolveQuestionAlt
    split
    · simp
    · cases b <;> simp

/-- Witness for the amended C3 at a concrete failed backend call. -/
theorem failure_surfacing_and_fallback_behavior_witness :
    handleSolveQuestionAlt "1+1" (BackendResult.err (some "boom")) =
      ⟨some "boom", none, true⟩ :=
  failure_surfacing_and_fallback_behavior.2.1 "1+1" (some "boom") (by decide)

/-- **C4** — A question whose text is empty or whitespace-only is rejected
before any retrieval, web-search or synthesis call: the `MathQuestion.js`
submit guard does not fire, both `App.js` handlers set the local error
without issuing the `/solve` request, and the (spec-modelled) Coordinator
— for every environment, hence without consulting any collaborator —
terminates as `rejected` with `InputRejected` and PipelineTrace exactly
`["input-guardrails"]`. -/
theorem empty_question_rejected_before_any_call (q : String)
    (hq : jsTrim q = "") :
    (∀ loading, mathQuestionSubmits q loading = false) ∧
    (∀ (demoMode : Bool) (backend : BackendResult) (now : String),
      handleSolveQuestion demoMode q backend now =
        ⟨some errEmptyQuestion, none, false⟩) ∧
    (∀ backend, handleSolveQuestionAlt q backend =
        ⟨some errEmptyQuestion, none, false⟩) ∧
    (∀ (env : PipelineEnv) (sid : String) (now : Nat),
      handle env q sid now =
        Outcome.rejected PipelineError.inputRejected ["input-guardrails"]) := by
  refine ⟨?_, ?_, ?_, ?_⟩
  · intro loading
    simp [mathQuestionSubmits, hq]
  · intro demoMode backend now
    simp [handleSolveQuestion, hq]
  · intro backend
    simp [handleSolveQuestionAlt, hq]
  · intro env sid now
    simp [handle, validateInput, hq]

/-- Witness for C4 at a whitespace-only question. -/
theorem empty_question_rejected_before_any_call_witness :
    handle envHigh "   " "session-3" 0 =
      Outcome.rejected PipelineError.inputRejected ["input-guardrails"] :=
  (empty_question_rejected_before_any_call "   " (by decide)).2.2.2 envHigh
    "session-3" 0

/-! ## Feedback Processor (spec §4.6; backend code absent from the tree)
and `SystemStatus.js` -/

/-- `canOptimize` from `SystemStatus.js`: the optimize-model button is
shown once `status.dspy_feedback_count >= 5`. -/
def canOptimize (dspyFeedbackCount : Nat) : Bool :=
  decide (5 ≤ dspyFeedbackCount)

/-- Modelled from the spec: the fixed feedback-count threshold at which
re-optimization fires (default 5, matching `SystemStatus.js`). -/
def optimizationThreshold : Nat := 5

inductive OptimizeSignal
  | optimizationTriggered
  | noOp
deriving Repr, DecidableEq

/-- Modelled from the spec §4.6: once the feedback count since the last
optimization has reached the fixed threshold, `maybe_optimize` signals
`OptimizationTriggered`, recalibrates the Router's threshold and resets
the counter; below the threshold it returns `NoOp` and changes nothing.
The exact recalibration formula is an open tunable (spec §9), so it is
the `recalibrate` parameter here. -/
def maybeOptimize (recalibrate : CalibrationState → ℚ)
    (cal : CalibrationState) : OptimizeSignal × CalibrationState :=
  if optimizationThreshold ≤ cal.feedbackCount then
    (.optimizationTriggered, ⟨0, recalibrate cal⟩)
  else
    (.noOp, cal)

/-- **C7** — `maybe_optimize` signals `OptimizationTriggered` exactly when
the feedback count since the last optimization has reached the fixed
threshold 5 (equivalently, exactly when the frontend's `canOptimize` guard
holds); when triggered it recalibrates the threshold and resets the
counter, and below the threshold it is a `NoOp` leaving the state
untouched. -/
theorem maybe_optimize_triggers_exactly_at_threshold
    (recalibrate : CalibrationState → ℚ) (cal : CalibrationState) :
    ((maybeOptimize recalibrate cal).1 = OptimizeSignal.optimizationTriggered ↔
      optimizationThreshold ≤ cal.feedbackCount) ∧
    ((maybeOptimize recalibrate cal).1 = OptimizeSignal.optimizationTriggered ↔
      canOptimize cal.feedbackCount = true) ∧
    (optimizationThreshold ≤ cal.feedbackCount →
      maybeOptimize recalibrate cal =
        (OptimizeSignal.optimizationTriggered, ⟨0, recalibrate cal⟩)) ∧
    (cal.feedbackCount < optimizationThreshold →
      maybeOptimize recalibrate cal = (OptimizeSignal.noOp, cal)) := by
  by_cases h : optimizationThreshold ≤ cal.feedbackCount
  · have h5 : 5 ≤ cal.feedbackCount := h
    have he : maybeOptimize recalibrate cal =
        (OptimizeSignal.optimizationTriggered, ⟨0, recalibrate cal⟩) := by
      unfold maybeOptimize
      rw [if_pos h]
    refine ⟨?_, ?_, fun _ => he, fun hlt => absurd h (not_le.mpr hlt)⟩
    · simp [he, h]
    · simp [he, canOptimize, h5]
  · have h5 : ¬5 ≤ cal.feedbackCount := h
    have he : maybeOptimize recalibrate cal = (OptimizeSignal.noOp, cal) := by
      unfold maybeOptimize
      rw [if_neg h]
    refine ⟨?_, ?_, fun hge => absurd hge h, fun _ => he⟩
    · simp [he, h]
    · simp [he, canOptimize, h5]

/-- Witness for C7: at feedback count 5 optimization triggers and resets
the counter; at 4 nothing happens. -/
theorem maybe_optimize_triggers_exactly_at_threshold_witness :
    maybeOptimize (fun _ => 3 / 5) ⟨5, 7 / 10⟩ =
      (OptimizeSignal.optimizationTriggered, ⟨0, 3 / 5⟩) ∧
    maybeOptimize (fun _ => 3 / 5) ⟨4, 7 / 10⟩ = (OptimizeSignal.noOp, ⟨4, 7 / 10⟩) :=
  ⟨(maybe_optimize_triggers_exactly_at_threshold (fun _ => 3 / 5)
      ⟨5, 7 / 10⟩).2.2.1 (by decide),
   (maybe_optimize_triggers_exactly_at_threshold (fun _ => 3 / 5)
      ⟨4, 7 / 10⟩).2.2.2 (by decide)⟩

/-- Modelled from the spec: a FeedbackRecord references the originating
SolutionResponse by session + question and carries a rating, free-text
feedback, an optional corrected answer and a timestamp. -/
structure FeedbackRecord where
  sessionId : String
  question : String
  rating : Nat
  feedbackText : String
  correctedAnswer : Option String
  timestamp : Nat
deriving Repr, DecidableEq

inductive FeedbackError
  | unknownReference
deriving Repr, DecidableEq

/-- The process-wide state the Feedback Processor acts on. -/
structure SystemState where
  responses : List SolutionResponse
  cal : CalibrationState
  store : KnowledgeStore
  ratingsLog : List (RouteChoice × Nat)
deriving Repr, DecidableEq

/-- Locate the originating SolutionResponse by session + question. -/
def findReference (responses : List SolutionResponse) (fb : FeedbackRecord) :
    Option SolutionResponse :=
  responses.find? (fun r => r.sessionId == fb.sessionId && r.question == fb.question)

/-- Modelled from the spec §4.6: the text promoted into the knowledge
store — for rating ≥ 4 the corrected answer if supplied else the original
answer, for rating ≤ 3 only a supplied corrected answer. -/
def promotedText (fb : FeedbackRecord) (resp : SolutionResponse) : Option String :=
  if 4 ≤ fb.rating then some (fb.correctedAnswer.getD resp.answer)
  else fb.correctedAnswer

/-- Modelled from the spec §4.6 `record_feedback`: if the referenced
SolutionResponse cannot be located, fail with `UnknownReference` and drop
the feedback, leaving every component of the state unchanged; otherwise
increment the calibration feedback count, log the rating against the
routing path that produced the answer, and promote the appropriate text
into the Knowledge Retriever. -/
def recordFeedback (embed : String → List ℚ) (sys : SystemState)
    (fb : FeedbackRecord) : Option FeedbackError × SystemState :=
  match findReference sys.responses fb with
  | none => (some .unknownReference, sys)
  | some resp =>
      (none,
       { responses := sys.responses
         cal := ⟨sys.cal.feedbackCount + 1, sys.cal.threshold⟩
         store :=
           match promotedText fb resp with
           | some text =>
               (sys.store.insertRecord fb.question text "feedback"
                 (embed fb.question) fb.timestamp).2
           | none => sys.store
         ratingsLog := sys.ratingsLog ++ [(resp.decision.choice, fb.rating)] })

/-- **C9** — Feedback whose referenced SolutionResponse cannot be located
fails with `UnknownReference` and is dropped: the state is returned intact,
so the calibration feedback count is unchanged and nothing is attributed
to any other record. -/
theorem unknown_reference_drops_feedback (embed : String → List ℚ)
    (sys : SystemState) (fb : FeedbackRecord)
    (h : findReference sys.responses fb = none) :
    recordFeedback embed sys fb = (some FeedbackError.unknownReference, sys) ∧
    ((recordFeedback embed sys fb).2).cal.feedbackCount = sys.cal.feedbackCount ∧
    ((recordFeedback embed sys fb).2).store = sys.store := by
  have he : recordFeedback embed sys fb = (some FeedbackError.unknownReference, sys) := by
    unfold recordFeedback
    rw [h]
  exact ⟨he, by rw [he], by rw [he]⟩

/-- Witness for C9 at a state with no recorded responses. -/
theorem unknown_reference_drops_feedback_witness :
    recordFeedback (fun _ => []) ⟨[], ⟨0, 7 / 10⟩, KnowledgeStore.emptyStore, []⟩
        ⟨"s", "q", 5, "", none, 0⟩ =
      (some FeedbackError.unknownReference,
       ⟨[], ⟨0, 7 / 10⟩, KnowledgeStore.emptyStore, []⟩) :=
  (unknown_reference_drops_feedback (fun _ => [])
    ⟨[], ⟨0, 7 / 10⟩, KnowledgeStore.emptyStore, []⟩
    ⟨"s", "q", 5, "", none, 0⟩ rfl).1

/-! ## Frontend: `FeedbackPanel.js` -/

/-- The star values rendered by `renderStars` — the only arguments
`setRating` is ever called with (besides the reset to 0). -/
def starValues : List Nat := [1, 2, 3, 4, 5]

/-- Local state of the `FeedbackPanel` component. -/
structure FeedbackFormState where
  rating : Nat
  feedbackText : String
  correctedAnswer : String
deriving Repr, DecidableEq

def initialFormState : FeedbackFormState := ⟨0, "", ""⟩

/-- The payload handed to `onSubmitFeedback` (rating, feedback text,
`correctedAnswer.trim() || null`). -/
structure FeedbackPayload where
  rating : Nat
  feedbackText : String
  correctedAnswer : Option String
deriving Repr, DecidableEq

/-- User interactions with the panel: clicking one of the rendered star
buttons, editing a textarea, or submitting the form. -/
inductive FormEvent
  | clickStar (s : Nat) (mem : s ∈ starValues)
  | editFeedback (t : String)
  | editCorrected (t : String)
  | submitForm

/-- One step of the `FeedbackPanel` component: the updated form state plus
the payload submitted to `onSubmitFeedback`, if any.  `handleSubmit`
refuses to call `onSubmitFeedback` while `rating === 0` (and the submit
button is disabled then); a successful submission resets the form. -/
def stepForm (st : FeedbackFormState) :
    FormEvent → FeedbackFormState × Option FeedbackPayload
  | .clickStar s _ => ({ st with rating := s }, none)
  | .editFeedback t => ({ st with feedbackText := t }, none)
  | .editCorrected t => ({ st with correctedAnswer := t }, none)
  | .submitForm =>
      if st.rating = 0 then (st, none)
      else
        (initialFormState,
         some ⟨st.rating, st.feedbackText,
               if jsTrim st.correctedAnswer = "" then none
               else some (jsTrim st.correctedAnswer)⟩)

/-- Run the panel from the state `st` over a sequence of events,
collecting every payload submitted to the feedback endpoint. -/
def runFormFrom (st : FeedbackFormState) : List FormEvent → List FeedbackPayload
  | [] => []
  | e :: es => ((stepForm st e).2).toList ++ runFormFrom (stepForm st e).1 es

/-- All payloads the panel sends to the feedback endpoint, starting from
its initial state. -/
def submittedPayloads (events : List FormEvent) : List FeedbackPayload :=
  runFormFrom initialFormState events

theorem starValues_bounds (s : Nat) (h : s ∈ starValues) : 1 ≤ s ∧ s ≤ 5 := by
  simp only [starValues, List.mem_cons, List.not_mem_nil, or_false] at h
  rcases h with h | h | h | h | h <;> subst h <;> exact ⟨by decide, by decide⟩

theorem runFormFrom_invariant (events : List FormEvent) :
    ∀ st : FeedbackFormState, st.rating = 0 ∨ st.rating ∈ starValues →
    ∀ p ∈ runFormFrom st events, 1 ≤ p.rating ∧ p.rating ≤ 5 := by
  induction events with
  | nil =>
      intro st _ p hp
      simp [runFormFrom] at hp
  | cons e es ih =>
      intro st hst p hp
      cases e with
      | clickStar s mem =>
          simp only [runFormFrom, stepForm, Option.toList_none, List.nil_append] at hp
          exact ih _ (Or.inr mem) p hp
      | editFeedback t =>
          simp only [runFormFrom, stepForm, Option.toList_none, List.nil_append] at hp
          exact ih { st with feedbackText := t } hst p hp
      | editCorrected t =>
          simp only [runFormFrom, stepForm, Option.toList_none, List.nil_append] at hp
          exact ih { st with correctedAnswer := t } hst p hp
      | submitForm =>
          by_cases h0 : st.rating = 0
          · simp only [runFormFrom, stepForm, h0, if_pos, Option.toList_none,
              List.nil_append] at hp
            exact ih st hst p hp
          · have hb := starValues_bounds st.rating (hst.resolve_left h0)
            simp only [runFormFrom, stepForm, if_neg h0, Option.toList_some,
              List.singleton_append, List.mem_cons] at hp
            rcases hp with hp | hp
            · subst hp
              exact hb
            · exact ih initialFormState (Or.inl rfl) p hp

/-- **C8** — Every feedback payload that reaches the feedback endpoint has
a rating in {1..5}: a submission with no rating selected (rating 0) is
rejected client-side before any call is made, and the only other ratings a
reachable form state can hold are the rendered star values 1..5. -/
theorem feedback_rating_always_one_to_five (events : List FormEvent)
    (p : FeedbackPayload) (hp : p ∈ submittedPayloads events) :
    1 ≤ p.rating ∧ p.rating ≤ 5 :=
  runFormFrom_invariant events initialFormState (Or.inl rfl) p hp

/-- Witness for C8: clicking the 3-star button and submitting yields the
single payload with rating 3. -/
theorem feedback_rating_always_one_to_five_witness :
    1 ≤ (FeedbackPayload.mk 3 "" none).rating ∧
      (FeedbackPayload.mk 3 "" none).rating ≤ 5 :=
  feedback_rating_always_one_to_five
    [FormEvent.clickStar 3 (by decide), FormEvent.submitForm]
    ⟨3, "", none⟩ (by decide)

/-! ## Frontend: the two `Typewriter` variants in `FeedbackPanel.js`

The first variant's tick appends `text[currentIndex]` and only then
checks `currentIndex >= text.length` to clear the interval; the second
checks `currentIndex < text.length` before appending.  The interval loop
is modelled synchronously; JavaScript strings are embedded as `List Char`,
and out-of-range indexing yields `undefined`, which string concatenation
coerces to the characters of `"undefined"`. -/

/-- The characters appended by `prev + text[i]` in JavaScript: the single
character at `i`, or the rendering of `undefined` out of range. -/
def jsCharAt (text : List Char) (i : Nat) : List Char :=
  match text.get? i with
  | some c => [c]
  | none => "undefined".data

/-- Tick loop of the first `Typewriter` variant (append first, then check
the bound). -/
def twAppendFirstGo (text : List Char) (i : Nat) (acc : List Char) : List Char :=
  if _h : text.length ≤ i + 1 then acc ++ jsCharAt text i
  else twAppendFirstGo text (i + 1) (acc ++ jsCharAt text i)
termination_by text.length - i
decreasing_by omega

/-- Final displayed text of the first `Typewriter` variant. -/
def typewriterAppendFirst (text : List Char) : List Char :=
  twAppendFirstGo text 0 []

/-- Tick loop of the second `Typewriter` variant (check the bound before
appending). -/
def twCheckFirstGo (text : List Char) (i : Nat) (acc : List Char) : List Char :=
  if _h : i < text.length then twCheckFirstGo text (i + 1) (acc ++ jsCharAt text i)
  else acc
termination_by text.length - i
decreasing_by omega

/-- Final displayed text of the second `Typewriter` variant. -/
def typewriterCheckFirst (text : List Char) : List Char :=
  twCheckFirstGo text 0 []

theorem jsCharAt_of_lt (text : List Char) (i : Nat) (hi : i < text.length) :
    jsCharAt text i = [text[i]] := by
  unfold jsCharAt
  rw [List.get?_eq_getElem?, List.getElem?_eq_getElem hi]

theorem twCheckFirstGo_eq (text : List Char) :
    ∀ (n i : Nat) (acc : List Char), text.length - i ≤ n →
      twCheckFirstGo text i acc = acc ++ text.drop i := by
  intro n
  induction n with
  | zero =>
      intro i acc h
      have hle : text.length ≤ i := by omega
      unfold twCheckFirstGo
      rw [dif_neg (not_lt.mpr hle), List.drop_eq_nil_of_le hle, List.append_nil]
  | succ n ih =>
      intro i acc h
      unfold twCheckFirstGo
      by_cases hi : i < text.length
      · rw [dif_pos hi, ih (i + 1) _ (by omega), jsCharAt_of_lt text i hi,
          List.append_assoc, List.singleton_append,
          ← List.drop_eq_getElem_cons hi]
      · rw [dif_neg hi, List.drop_eq_nil_of_le (not_lt.mp hi), List.append_nil]

theorem twAppendFirstGo_eq (text : List Char) :
    ∀ (n i : Nat) (acc : List Char), text.length - i ≤ n → i < text.length →
      twAppendFirstGo text i acc = acc ++ text.drop i := by
  intro n
  induction n with
  | zero =>
      intro i acc h hi
      exact absurd hi (by omega)
  | succ n ih =>
      intro i acc h hi
      unfold twAppendFirstGo
      by_cases hle : text.length ≤ i + 1
      · rw [dif_pos hle, jsCharAt_of_lt text i hi, List.drop_eq_getElem_cons hi,
          List.drop_eq_nil_of_le (by omega)]
      · rw [dif_neg hle, ih (i + 1) _ (by omega) (by omega),
          jsCharAt_of_lt text i hi, List.append_assoc, List.singleton_append,
          ← List.drop_eq_getElem_cons hi]

/-- **C10, counterexample** — on the empty input the append-first variant
displays `"undefined"` (the JavaScript coercion of `undefined` appended by
its unguarded first tick) while the check-first variant displays the empty
string, so the two variants do not agree on all inputs. -/
theorem typewriter_empty_input_counterexample :
    typewriterAppendFirst [] = "undefined".data ∧
    typewriterCheckFirst [] = [] ∧
    typewriterAppendFirst [] ≠ typewriterCheckFirst [] := by
  have h1 : typewriterAppendFirst [] = "undefined".data := by
    unfold typewriterAppendFirst twAppendFirstGo
    rw [dif_pos (by norm_num)]
    rfl
  have h2 : typewriterCheckFirst [] = [] := by
    unfold typewriterCheckFirst twCheckFirstGo
    rw [dif_neg (by norm_num)]
  refine ⟨h1, h2, ?_⟩
  rw [h1, h2]
  decide

/-- **C10, amended** — for every nonempty input the two `Typewriter`
variants accumulate the same final displayed string, namely the input
text itself; they differ only on the empty input (where the append-first
variant displays `"undefined"`). -/
theorem typewriter_variants_agree_on_nonempty (text : List Char)
    (h : text ≠ []) :
    typewriterAppendFirst text = text ∧
    typewriterCheckFirst text = text ∧
    typewriterAppendFirst text = typewriterCheckFirst text := by
  have hpos : 0 < text.length := List.length_pos.mpr h
  have h1 : typewriterAppendFirst text = text := by
    unfold typewriterAppendFirst
    rw [twAppendFirstGo_eq text text.length 0 [] (by omega) hpos]
    simp
  have h2 : typewriterCheckFirst text = text := by
    unfold typewriterCheckFirst
    rw [twCheckFirstGo_eq text text.length 0 [] (by omega)]
    simp
  exact ⟨h1, h2, by rw [h1, h2]⟩

/-- Witness for the amended C10 on the input `"hi"`. -/
theorem typewriter_variants_agree_on_nonempty_witness :
    typewriterAppendFirst "hi".data = "hi".data :=
  (typewriter_variants_agree_on_nonempty "hi".data (by decide)).1

end MathTutor
